import Mathlib

/-!
Shallow embedding of `src/main.py` (busca-cnpj-e-salva): a three-step
pipeline fetch -> normalize -> export over JSON-like company records.

Modelling conventions:
* Python dicts produced by `json.loads` are ordered string-keyed maps; we
  embed them as ordered association lists `List (String × JValue)`.
* JSON numbers are modelled as integers (`Int`); no claim involves
  non-integer numerics.
* Functions that can raise an uncaught Python exception are embedded as
  `Option`-valued functions, `none` standing for the raised exception.
* Console and network side effects of the fetcher are recorded in an
  explicit effect trace.
-/

set_option autoImplicit false

/-- JSON-like values, the dynamic data manipulated by the script. -/
inductive JValue where
  | str (s : String)
  | num (n : Int)
  | bool (b : Bool)
  | null
  | arr (itens : List JValue)
  | obj (campos : List (String × JValue))

/-- A parsed JSON object / Python dict: ordered key-value bindings. -/
abbrev Registro := List (String × JValue)

/-- Python `d[chave]` / `d.get(chave)`: first binding for the key. -/
def dictGet : Registro → String → Option JValue
  | [], _ => none
  | (k, v) :: resto, chave => if k = chave then some v else dictGet resto chave

/-- Python `d[chave] = v`: rebind the key in place (dict keys are unique,
so rebinding the first occurrence is dict-assignment semantics), appending
a fresh binding when the key is absent. -/
def dictSet : Registro → String → JValue → Registro
  | [], chave, v => [(chave, v)]
  | (k, w) :: resto, chave, v =>
      if k = chave then (k, v) :: resto
      else (k, w) :: dictSet resto chave v

mutual
/-- Python `repr` of a JSON-like value, as used inside `str` of a container.
Escaping of special characters inside string literals is not modelled (no
claim depends on it). -/
def pyRepr : JValue → String
  | JValue.str s => "\x27" ++ s ++ "\x27"
  | JValue.num n => toString n
  | JValue.bool b => if b then "True" else "False"
  | JValue.null => "None"
  | JValue.arr itens => "[" ++ pyReprLista itens ++ "]"
  | JValue.obj campos => "\x7b" ++ pyReprCampos campos ++ "\x7d"

/-- Comma-separated `repr` of the items of a Python list. -/
def pyReprLista : List JValue → String
  | [] => ""
  | [v] => pyRepr v
  | v :: w :: resto => pyRepr v ++ ", " ++ pyReprLista (w :: resto)

/-- Comma-separated `repr` of the bindings of a Python dict. -/
def pyReprCampos : List (String × JValue) → String
  | [] => ""
  | [(k, v)] => "\x27" ++ k ++ "\x27: " ++ pyRepr v
  | (k, v) :: par :: resto =>
      "\x27" ++ k ++ "\x27: " ++ pyRepr v ++ ", " ++ pyReprCampos (par :: resto)
end

/-- Python `str`: like `repr` except that a top-level string is returned
as-is, without quotes. -/
def pyStr : JValue → String
  | JValue.str s => s
  | v => pyRepr v

/-! ## Normalizer: `tratar_dados_aninhados` (main.py lines 141-193) -/

/-- One step of the comprehension `[ativ[chaveTexto] for ativ in ...]`
followed by `"; ".join`: the item must be a dict whose `text` binding is a
string; a missing key raises `KeyError`, a non-dict item or a non-string
text raises `TypeError` (both modelled as `none`). -/
def textoDe : JValue → Option String
  | JValue.obj campos =>
      match dictGet campos "text" with
      | some (JValue.str s) => some s
      | _ => none
  | _ => none

/-- `f"\x7bq[chave-nome]\x7d (\x7bq.get(chave-qual, vazio)\x7d)"` applied to one item
of the `qsa` list: the item must be a dict with a `nome` binding; `qual`
defaults to the empty string; both are rendered with `str`. -/
def socioDe : JValue → Option String
  | JValue.obj campos =>
      match dictGet campos "nome" with
      | some nome =>
          some (pyStr nome ++ " (" ++
            (match dictGet campos "qual" with
             | some q => pyStr q
             | none => "") ++ ")")
      | none => none
  | _ => none

/-- Iterating `dados[chave]` in a list comprehension whose body is
`extrai`: a list iterates its items; an empty string or empty dict
iterates zero items; every other value raises (`TypeError`), because the
comprehension body subscripts each element with a string key. -/
def iteraCom (extrai : JValue → Option String) : JValue → Option (List String)
  | JValue.arr itens => itens.mapM extrai
  | JValue.str s => if s = "" then some [] else none
  | JValue.obj campos => if campos.isEmpty then some [] else none
  | _ => none

/-- `if chave in dados: dados[chave] = "; ".join([... for ... in dados[chave]])`
for the two activity fields (`extrai = textoDe`) and for `qsa`
(`extrai = socioDe`). -/
def trataJuncao (extrai : JValue → Option String) (chave : String)
    (dados : Registro) : Option Registro :=
  match dictGet dados chave with
  | none => some dados
  | some v =>
      match iteraCom extrai v with
      | some partes =>
          some (dictSet dados chave (JValue.str (String.intercalate "; " partes)))
      | none => none

/-- `if chave in dados: dados[chave] = str(dados[chave])`, used for the
`billing` and `extra` fields; never raises. -/
def trataStr (chave : String) (dados : Registro) : Registro :=
  match dictGet dados chave with
  | none => dados
  | some v => dictSet dados chave (JValue.str (pyStr v))

/-- `tratar_dados_aninhados(dados)`: flattens the five known nested fields
in source order; `none` models an uncaught exception escaping the call. -/
def tratar_dados_aninhados (dados : Registro) : Option Registro :=
  match trataJuncao textoDe "atividade_principal" dados with
  | none => none
  | some d1 =>
      match trataJuncao textoDe "atividades_secundarias" d1 with
      | none => none
      | some d2 =>
          match trataJuncao socioDe "qsa" d2 with
          | none => none
          | some d3 => some (trataStr "extra" (trataStr "billing" d3))

/-! ## Exporter: `salvar_dados_empresa_excel` (main.py lines 89-138) -/

/-- Observable outcome of one call to the exporter: either a spreadsheet
write (header row, single data row, file name, confirmation line), a
guard-skip with its console line, or an uncaught exception raised by the
normalizer (no file written). -/
inductive ResultadoExportacao where
  | salvo (colunas : List String) (linha : List JValue)
      (nome_arquivo : String) (console : String)
  | pulado (console : String)
  | excecao

/-- The comparison `dados_empresa.get(chave-status) != erro`: true unless the
value is exactly the string `"ERROR"` (an absent key yields `None`, which
also differs from `"ERROR"`). -/
def statusNaoErro : Option JValue → Bool
  | some (JValue.str s) => s != "ERROR"
  | _ => true

/-- The skip-branch console line
`f"Não há dados válidos para salvar. Mensagem de erro: \x7b...\x7d"`, where the
f-string renders `dados_empresa.get` of `message` with `str` (`None` when the
key is absent). -/
def avisoPulo (dados : Registro) : String :=
  "Não há dados válidos para salvar. Mensagem de erro: " ++
    (match dictGet dados "message" with
     | some m => pyStr m
     | none => "None")

/-- `salvar_dados_empresa_excel(dados_empresa, nome_arquivo)`. The guard is
`dados_empresa and dados_empresa.get(chave-status) != erro` (a dict is truthy
iff non-empty). On the write path, `pd.DataFrame([dados])` has one column
per key in iteration order and one row of the values, and
`to_excel(nome_arquivo, index=False)` writes it without an index column,
overwriting. The default file name at the call site is
`"dados_empresa.xlsx"`. -/
def salvar_dados_empresa_excel (dados_empresa : Registro)
    (nome_arquivo : String) : ResultadoExportacao :=
  if !dados_empresa.isEmpty && statusNaoErro (dictGet dados_empresa "status") then
    match tratar_dados_aninhados dados_empresa with
    | some tratados =>
        ResultadoExportacao.salvo (tratados.map Prod.fst) (tratados.map Prod.snd)
          nome_arquivo
          ("Dados da empresa salvos com sucesso no arquivo " ++ nome_arquivo)
    | none => ResultadoExportacao.excecao
  else
    ResultadoExportacao.pulado (avisoPulo dados_empresa)

/-! ## Fetcher: `obter_dados_empresa_por_cnpj` (main.py lines 11-86) -/

/-- Side effects of one fetcher call, in program order. -/
inductive Efeito where
  | requisicaoGET (caminho : String)
  | imprime (linha : String)
  | leCorpo
  | fechaConexao
  | decodificaJSON
deriving DecidableEq

/-- Abstraction of the HTTPS response the transport hands back: its status
code, the raw body, and the outcome `json.loads` has on the UTF-8 decoded
body (`Except.error` carries `str(e)` of the `JSONDecodeError`). `json.loads`
is Python standard library, external to this repository, so its outcome is
a field of the environment rather than re-implemented. -/
structure Resposta where
  status : Nat
  corpo : String
  decodificado : Except String JValue

/-- `obter_dados_empresa_por_cnpj(cnpj)` evaluated against response
`resposta`: returns the Python value the function returns, paired with the
trace of its side effects in program order. -/
def obter_dados_empresa_por_cnpj (cnpj : String) (resposta : Resposta) :
    JValue × List Efeito :=
  let inicio := [Efeito.requisicaoGET ("/v1/cnpj/" ++ cnpj),
    Efeito.imprime ("Status da Resposta HTTP: " ++ toString resposta.status)]
  if resposta.status ≠ 200 then
    (JValue.obj [("status", JValue.str "ERROR"),
       ("message", JValue.str ("Resposta HTTP com status " ++ toString resposta.status))],
     inicio)
  else
    let meio := inicio ++ [Efeito.leCorpo, Efeito.fechaConexao, Efeito.decodificaJSON]
    match resposta.decodificado with
    | Except.ok empresa =>
        (empresa, meio ++ [Efeito.imprime ("Empresa decodificada: " ++ pyStr empresa)])
    | Except.error e =>
        (JValue.obj [("status", JValue.str "ERROR"),
           ("message", JValue.str "Erro na decodificação do JSON.")],
         meio ++ [Efeito.imprime ("Erro na decodificação do JSON: " ++ e)])

/-! ## Helper lemmas about the dict operations and normalizer steps -/

theorem dictGet_dictSet_self (d : Registro) (chave : String) (v : JValue) :
    dictGet (dictSet d chave v) chave = some v := by
  induction d with
  | nil => simp [dictSet, dictGet]
  | cons par resto ih =>
      obtain ⟨k, w⟩ := par
      by_cases h : k = chave
      · subst h; simp [dictSet, dictGet]
      · simp [dictSet, dictGet, h, ih]

theorem dictGet_dictSet_ne (d : Registro) (chave k : String) (v : JValue)
    (h : k ≠ chave) :
    dictGet (dictSet d chave v) k = dictGet d k := by
  induction d with
  | nil => simp [dictSet, dictGet, Ne.symm h]
  | cons par resto ih =>
      obtain ⟨k1, w⟩ := par
      by_cases h1 : k1 = chave
      · subst h1
        simp [dictSet, dictGet, Ne.symm h]
      · by_cases h2 : k1 = k
        · simp [dictSet, dictGet, h1, h2, h]
        · simp [dictSet, dictGet, h1, h2, ih]

theorem map_fst_dictSet (d : Registro) (chave : String) (v : JValue)
    (h : (dictGet d chave).isSome) :
    (dictSet d chave v).map Prod.fst = d.map Prod.fst := by
  induction d with
  | nil => simp [dictGet] at h
  | cons par resto ih =>
      obtain ⟨k, w⟩ := par
      by_cases h1 : k = chave
      · subst h1; simp [dictSet]
      · rw [dictGet] at h
        simp only [h1, if_false] at h
        simp [dictSet, h1, ih h]

theorem mapM_none_of_mem {α β : Type} (f : α → Option β) {l : List α} {x : α}
    (hx : x ∈ l) (hf : f x = none) : l.mapM f = none := by
  induction l with
  | nil => cases hx
  | cons a resto ih =>
      rw [List.mapM_cons]
      rcases List.mem_cons.mp hx with h | h
      · subst h; simp [hf]
      · cases ha : f a with
        | none => simp
        | some y =>
            rw [ih h]
            rfl

theorem trataJuncao_ausente (extrai : JValue → Option String) (chave : String)
    {d : Registro} (h : dictGet d chave = none) :
    trataJuncao extrai chave d = some d := by
  unfold trataJuncao
  rw [h]

theorem trataJuncao_presente (extrai : JValue → Option String) (chave : String)
    {d : Registro} {v : JValue} {partes : List String}
    (hg : dictGet d chave = some v) (hi : iteraCom extrai v = some partes) :
    trataJuncao extrai chave d =
      some (dictSet d chave (JValue.str (String.intercalate "; " partes))) := by
  simp only [trataJuncao, hg, hi]

theorem trataJuncao_falha (extrai : JValue → Option String) (chave : String)
    {d : Registro} {v : JValue}
    (hg : dictGet d chave = some v) (hi : iteraCom extrai v = none) :
    trataJuncao extrai chave d = none := by
  simp only [trataJuncao, hg, hi]

theorem map_fst_trataJuncao (extrai : JValue → Option String) (chave : String)
    {d d' : Registro} (h : trataJuncao extrai chave d = some d') :
    d'.map Prod.fst = d.map Prod.fst := by
  cases hg : dictGet d chave with
  | none =>
      rw [trataJuncao_ausente extrai chave hg] at h
      cases h
      rfl
  | some v =>
      cases hi : iteraCom extrai v with
      | none => rw [trataJuncao_falha extrai chave hg hi] at h; cases h
      | some partes =>
          rw [trataJuncao_presente extrai chave hg hi] at h
          cases h
          exact map_fst_dictSet d chave _ (by rw [hg]; rfl)

theorem dictGet_trataJuncao_ne (extrai : JValue → Option String)
    (chave k : String) (hk : k ≠ chave) {d d' : Registro}
    (h : trataJuncao extrai chave d = some d') :
    dictGet d' k = dictGet d k := by
  cases hg : dictGet d chave with
  | none =>
      rw [trataJuncao_ausente extrai chave hg] at h
      cases h
      rfl
  | some v =>
      cases hi : iteraCom extrai v with
      | none => rw [trataJuncao_falha extrai chave hg hi] at h; cases h
      | some partes =>
          rw [trataJuncao_presente extrai chave hg hi] at h
          cases h
          exact dictGet_dictSet_ne d chave k _ hk

theorem trataStr_ausente (chave : String) {d : Registro}
    (h : dictGet d chave = none) : trataStr chave d = d := by
  unfold trataStr
  rw [h]

theorem map_fst_trataStr (chave : String) (d : Registro) :
    (trataStr chave d).map Prod.fst = d.map Prod.fst := by
  unfold trataStr
  cases hg : dictGet d chave with
  | none => rfl
  | some v => exact map_fst_dictSet d chave _ (by rw [hg]; rfl)

theorem dictGet_trataStr_ne (chave k : String) (hk : k ≠ chave)
    (d : Registro) : dictGet (trataStr chave d) k = dictGet d k := by
  unfold trataStr
  cases hg : dictGet d chave with
  | none => rfl
  | some v => exact dictGet_dictSet_ne d chave k _ hk

/-- Decomposition of a successful run of the normalizer into its five
source-order steps. -/
theorem tratar_cadeia {d d' : Registro}
    (h : tratar_dados_aninhados d = some d') :
    ∃ d1 d2 d3,
      trataJuncao textoDe "atividade_principal" d = some d1 ∧
      trataJuncao textoDe "atividades_secundarias" d1 = some d2 ∧
      trataJuncao socioDe "qsa" d2 = some d3 ∧
      d' = trataStr "extra" (trataStr "billing" d3) := by
  cases h1 : trataJuncao textoDe "atividade_principal" d with
  | none => simp only [tratar_dados_aninhados, h1] at h; cases h
  | some d1 =>
      simp only [tratar_dados_aninhados, h1] at h
      cases h2 : trataJuncao textoDe "atividades_secundarias" d1 with
      | none => simp only [h2] at h; cases h
      | some d2 =>
          simp only [h2] at h
          cases h3 : trataJuncao socioDe "qsa" d2 with
          | none => simp only [h3] at h; cases h
          | some d3 =>
              simp only [h3, Option.some.injEq] at h
              exact ⟨d1, d2, d3, rfl, h2, h3, h.symm⟩

theorem tratar_falha_passo1 {d : Registro}
    (h : trataJuncao textoDe "atividade_principal" d = none) :
    tratar_dados_aninhados d = none := by
  unfold tratar_dados_aninhados
  rw [h]

theorem tratar_falha_passo3 {d d1 d2 : Registro}
    (h1 : trataJuncao textoDe "atividade_principal" d = some d1)
    (h2 : trataJuncao textoDe "atividades_secundarias" d1 = some d2)
    (h3 : trataJuncao socioDe "qsa" d2 = none) :
    tratar_dados_aninhados d = none := by
  simp only [tratar_dados_aninhados, h1, h2, h3]

/-! ## Claim theorems: fetcher -/

/-- C2: for every HTTP response whose status code is not 200, the fetcher
returns the record with status `"ERROR"` and a message containing the
status code, and neither reads nor JSON-parses the response body; every
non-success status produces this same error shape. -/
theorem obter_nao_200_retorna_erro (cnpj : String) (r : Resposta)
    (h : r.status ≠ 200) :
    (obter_dados_empresa_por_cnpj cnpj r).1 =
      JValue.obj [("status", JValue.str "ERROR"),
        ("message", JValue.str ("Resposta HTTP com status " ++ toString r.status))] ∧
    Efeito.leCorpo ∉ (obter_dados_empresa_por_cnpj cnpj r).2 ∧
    Efeito.decodificaJSON ∉ (obter_dados_empresa_por_cnpj cnpj r).2 := by
  refine ⟨?_, ?_, ?_⟩ <;> simp [obter_dados_empresa_por_cnpj, h]

/-- C2 witness: instantiation at status 404. -/
theorem obter_nao_200_retorna_erro_testemunha :
    (obter_dados_empresa_por_cnpj "06947283000160"
        ⟨404, "", Except.error "x"⟩).1 =
      JValue.obj [("status", JValue.str "ERROR"),
        ("message", JValue.str ("Resposta HTTP com status " ++ toString (404 : Nat)))] ∧
    Efeito.leCorpo ∉ (obter_dados_empresa_por_cnpj "06947283000160"
        ⟨404, "", Except.error "x"⟩).2 ∧
    Efeito.decodificaJSON ∉ (obter_dados_empresa_por_cnpj "06947283000160"
        ⟨404, "", Except.error "x"⟩).2 :=
  obter_nao_200_retorna_erro "06947283000160" ⟨404, "", Except.error "x"⟩ (by decide)

/-- C3: for status 200, a malformed body yields exactly the fixed
JSON-decoding ErrorResult, with the parser diagnostic only in a console
line; a well-formed body is returned unmodified. -/
theorem obter_200_decodifica (cnpj : String) (r : Resposta)
    (h : r.status = 200) :
    (∀ e, r.decodificado = Except.error e →
        (obter_dados_empresa_por_cnpj cnpj r).1 =
          JValue.obj [("status", JValue.str "ERROR"),
            ("message", JValue.str "Erro na decodificação do JSON.")] ∧
        Efeito.imprime ("Erro na decodificação do JSON: " ++ e) ∈
          (obter_dados_empresa_por_cnpj cnpj r).2) ∧
    (∀ v, r.decodificado = Except.ok v →
        (obter_dados_empresa_por_cnpj cnpj r).1 = v) := by
  constructor
  · intro e he
    refine ⟨?_, ?_⟩ <;> simp [obter_dados_empresa_por_cnpj, h, he]
  · intro v hv
    simp [obter_dados_empresa_por_cnpj, h, hv]

/-- C3 witness: a parse failure and a parse success, both at status 200. -/
theorem obter_200_decodifica_testemunha :
    ((obter_dados_empresa_por_cnpj "06947283000160"
         ⟨200, "nope", Except.error "Expecting value"⟩).1 =
       JValue.obj [("status", JValue.str "ERROR"),
         ("message", JValue.str "Erro na decodificação do JSON.")] ∧
     Efeito.imprime ("Erro na decodificação do JSON: " ++ "Expecting value") ∈
       (obter_dados_empresa_por_cnpj "06947283000160"
         ⟨200, "nope", Except.error "Expecting value"⟩).2) ∧
    (obter_dados_empresa_por_cnpj "06947283000160"
        ⟨200, "\x7b\x7d", Except.ok (JValue.obj [])⟩).1 = JValue.obj [] :=
  ⟨(obter_200_decodifica "06947283000160"
        ⟨200, "nope", Except.error "Expecting value"⟩ rfl).1 "Expecting value" rfl,
   (obter_200_decodifica "06947283000160"
        ⟨200, "\x7b\x7d", Except.ok (JValue.obj [])⟩ rfl).2 (JValue.obj []) rfl⟩

/-- C9 (amended): on the status-200 paths (parse success and parse
failure) the body is read and the connection is closed before returning;
on the non-200 path the function returns without doing either (see the
counterexample). -/
theorem obter_le_corpo_e_fecha_em_200 (cnpj : String) (r : Resposta)
    (h : r.status = 200) :
    Efeito.leCorpo ∈ (obter_dados_empresa_por_cnpj cnpj r).2 ∧
    Efeito.fechaConexao ∈ (obter_dados_empresa_por_cnpj cnpj r).2 := by
  cases hd : r.decodificado <;>
    refine ⟨?_, ?_⟩ <;> simp [obter_dados_empresa_por_cnpj, h, hd]

/-- C9 witness: instantiation at a status-200 response. -/
theorem obter_le_corpo_e_fecha_em_200_testemunha :
    Efeito.leCorpo ∈ (obter_dados_empresa_por_cnpj "06947283000160"
        ⟨200, "\x7b\x7d", Except.ok (JValue.obj [])⟩).2 ∧
    Efeito.fechaConexao ∈ (obter_dados_empresa_por_cnpj "06947283000160"
        ⟨200, "\x7b\x7d", Except.ok (JValue.obj [])⟩).2 :=
  obter_le_corpo_e_fecha_em_200 "06947283000160"
    ⟨200, "\x7b\x7d", Except.ok (JValue.obj [])⟩ rfl

/-- C9 counterexample: at status 500 the fetcher returns without reading
the body and without closing the connection (the early return at
main.py line 43 precedes `resposta.read()` and `conexao.close()`). -/
theorem obter_nao_fecha_conexao_em_500 :
    Efeito.leCorpo ∉ (obter_dados_empresa_por_cnpj "06947283000160"
        ⟨500, "", Except.error ""⟩).2 ∧
    Efeito.fechaConexao ∉ (obter_dados_empresa_por_cnpj "06947283000160"
        ⟨500, "", Except.error ""⟩).2 := by
  refine ⟨?_, ?_⟩ <;> simp [obter_dados_empresa_por_cnpj]

/-! ## Claim theorems: normalizer -/

theorem tratar_falha_passo2 {d d1 : Registro}
    (h1 : trataJuncao textoDe "atividade_principal" d = some d1)
    (h2 : trataJuncao textoDe "atividades_secundarias" d1 = none) :
    tratar_dados_aninhados d = none := by
  simp only [tratar_dados_aninhados, h1, h2]

/-- C4: when `atividade_principal` (respectively `atividades_secundarias`)
holds a sequence of records whose `text` extraction succeeds with the list
`textos`, a successful normalization rebinds that field to the single
string joining `textos` with a semicolon-space separator. -/
theorem tratar_atividades_junta_textos {d d' : Registro}
    (htr : tratar_dados_aninhados d = some d') :
    (∀ itens textos, dictGet d "atividade_principal" = some (JValue.arr itens) →
        itens.mapM textoDe = some textos →
        dictGet d' "atividade_principal" =
          some (JValue.str (String.intercalate "; " textos))) ∧
    (∀ itens textos, dictGet d "atividades_secundarias" = some (JValue.arr itens) →
        itens.mapM textoDe = some textos →
        dictGet d' "atividades_secundarias" =
          some (JValue.str (String.intercalate "; " textos))) := by
  obtain ⟨d1, d2, d3, h1, h2, h3, hd'⟩ := tratar_cadeia htr
  constructor
  · intro itens textos hg hm
    have hpasso := trataJuncao_presente textoDe "atividade_principal" hg
      (show iteraCom textoDe (JValue.arr itens) = some textos from hm)
    rw [h1] at hpasso
    cases hpasso
    rw [hd',
      dictGet_trataStr_ne "extra" "atividade_principal" (by decide) _,
      dictGet_trataStr_ne "billing" "atividade_principal" (by decide) _,
      dictGet_trataJuncao_ne socioDe "qsa" "atividade_principal" (by decide) h3,
      dictGet_trataJuncao_ne textoDe "atividades_secundarias" "atividade_principal"
        (by decide) h2,
      dictGet_dictSet_self]
  · intro itens textos hg hm
    have hg1 : dictGet d1 "atividades_secundarias" = some (JValue.arr itens) := by
      rw [dictGet_trataJuncao_ne textoDe "atividade_principal" "atividades_secundarias"
        (by decide) h1, hg]
    have hpasso := trataJuncao_presente textoDe "atividades_secundarias" hg1
      (show iteraCom textoDe (JValue.arr itens) = some textos from hm)
    rw [h2] at hpasso
    cases hpasso
    rw [hd',
      dictGet_trataStr_ne "extra" "atividades_secundarias" (by decide) _,
      dictGet_trataStr_ne "billing" "atividades_secundarias" (by decide) _,
      dictGet_trataJuncao_ne socioDe "qsa" "atividades_secundarias" (by decide) h3,
      dictGet_dictSet_self]

/-- C4 witness: `[\x7btext: A\x7d, \x7btext: B\x7d]` becomes `"A; B"`, and a
secondary-activities list `[\x7btext: C\x7d]` becomes `"C"`. -/
theorem tratar_atividades_junta_textos_testemunha :
    dictGet [("atividade_principal", JValue.str "A; B"),
        ("atividades_secundarias", JValue.str "C")] "atividade_principal" =
      some (JValue.str (String.intercalate "; " ["A", "B"])) ∧
    dictGet [("atividade_principal", JValue.str "A; B"),
        ("atividades_secundarias", JValue.str "C")] "atividades_secundarias" =
      some (JValue.str (String.intercalate "; " ["C"])) :=
  ⟨(tratar_atividades_junta_textos (show tratar_dados_aninhados
        [("atividade_principal", JValue.arr
            [JValue.obj [("text", JValue.str "A")], JValue.obj [("text", JValue.str "B")]]),
         ("atividades_secundarias", JValue.arr [JValue.obj [("text", JValue.str "C")]])] =
      some [("atividade_principal", JValue.str "A; B"),
        ("atividades_secundarias", JValue.str "C")] from rfl)).1 _ ["A", "B"] rfl rfl,
   (tratar_atividades_junta_textos (show tratar_dados_aninhados
        [("atividade_principal", JValue.arr
            [JValue.obj [("text", JValue.str "A")], JValue.obj [("text", JValue.str "B")]]),
         ("atividades_secundarias", JValue.arr [JValue.obj [("text", JValue.str "C")]])] =
      some [("atividade_principal", JValue.str "A; B"),
        ("atividades_secundarias", JValue.str "C")] from rfl)).2 _ ["C"] rfl rfl⟩

/-- C5: when `qsa` holds a sequence of member records whose
`"<nome> (<qual-or-empty>)"` rendering succeeds with the list `socios`, a
successful normalization rebinds `qsa` to the single string joining
`socios` with a semicolon-space separator. -/
theorem tratar_qsa_junta_socios {d d' : Registro}
    (htr : tratar_dados_aninhados d = some d')
    (itens : List JValue) (socios : List String)
    (hg : dictGet d "qsa" = some (JValue.arr itens))
    (hm : itens.mapM socioDe = some socios) :
    dictGet d' "qsa" = some (JValue.str (String.intercalate "; " socios)) := by
  obtain ⟨d1, d2, d3, h1, h2, h3, hd'⟩ := tratar_cadeia htr
  have hg2 : dictGet d2 "qsa" = some (JValue.arr itens) := by
    rw [dictGet_trataJuncao_ne textoDe "atividades_secundarias" "qsa" (by decide) h2,
      dictGet_trataJuncao_ne textoDe "atividade_principal" "qsa" (by decide) h1, hg]
  have hpasso := trataJuncao_presente socioDe "qsa" hg2
    (show iteraCom socioDe (JValue.arr itens) = some socios from hm)
  rw [h3] at hpasso
  cases hpasso
  rw [hd',
    dictGet_trataStr_ne "extra" "qsa" (by decide) _,
    dictGet_trataStr_ne "billing" "qsa" (by decide) _,
    dictGet_dictSet_self]

/-- C5 witness: `[\x7bnome: X, qual: Socio\x7d, \x7bnome: Y\x7d]` becomes
`"X (Socio); Y ()"`. -/
theorem tratar_qsa_junta_socios_testemunha :
    dictGet [("qsa", JValue.str "X (Socio); Y ()")] "qsa" =
      some (JValue.str (String.intercalate "; " ["X (Socio)", "Y ()"])) :=
  tratar_qsa_junta_socios (show tratar_dados_aninhados
      [("qsa", JValue.arr
          [JValue.obj [("nome", JValue.str "X"), ("qual", JValue.str "Socio")],
           JValue.obj [("nome", JValue.str "Y")]])] =
    some [("qsa", JValue.str "X (Socio); Y ()")] from rfl)
    _ ["X (Socio)", "Y ()"] rfl rfl

/-- C7: a record containing none of the five known keys is returned
completely unchanged, and on any successful normalization every field
other than the five known ones keeps its original value. -/
theorem tratar_preserva_outros_campos (d : Registro) :
    (dictGet d "atividade_principal" = none →
     dictGet d "atividades_secundarias" = none →
     dictGet d "qsa" = none → dictGet d "billing" = none →
     dictGet d "extra" = none → tratar_dados_aninhados d = some d) ∧
    (∀ d' k, tratar_dados_aninhados d = some d' →
        k ≠ "atividade_principal" → k ≠ "atividades_secundarias" → k ≠ "qsa" →
        k ≠ "billing" → k ≠ "extra" → dictGet d' k = dictGet d k) := by
  constructor
  · intro h1 h2 h3 h4 h5
    simp only [tratar_dados_aninhados, trataJuncao_ausente textoDe _ h1,
      trataJuncao_ausente textoDe _ h2, trataJuncao_ausente socioDe _ h3,
      trataStr_ausente _ h4, trataStr_ausente _ h5]
  · intro d' k htr hk1 hk2 hk3 hk4 hk5
    obtain ⟨d1, d2, d3, h1, h2, h3, hd'⟩ := tratar_cadeia htr
    rw [hd', dictGet_trataStr_ne "extra" k hk5 _, dictGet_trataStr_ne "billing" k hk4 _,
      dictGet_trataJuncao_ne socioDe "qsa" k hk3 h3,
      dictGet_trataJuncao_ne textoDe "atividades_secundarias" k hk2 h2,
      dictGet_trataJuncao_ne textoDe "atividade_principal" k hk1 h1]

/-- C7 witness: a record with none of the five keys is unchanged, and the
`cnpj` field of a record that also carries a `billing` field survives
normalization with its value intact. -/
theorem tratar_preserva_outros_campos_testemunha :
    tratar_dados_aninhados [("cnpj", JValue.str "06947283000160")] =
      some [("cnpj", JValue.str "06947283000160")] ∧
    dictGet [("cnpj", JValue.str "06947283000160"),
        ("billing", JValue.str "\x7b\x27free\x27: True\x7d")] "cnpj" =
      dictGet [("cnpj", JValue.str "06947283000160"),
        ("billing", JValue.obj [("free", JValue.bool true)])] "cnpj" :=
  ⟨(tratar_preserva_outros_campos _).1 rfl rfl rfl rfl rfl,
   (tratar_preserva_outros_campos _).2 _ "cnpj"
     (show tratar_dados_aninhados [("cnpj", JValue.str "06947283000160"),
         ("billing", JValue.obj [("free", JValue.bool true)])] =
       some [("cnpj", JValue.str "06947283000160"),
         ("billing", JValue.str "\x7b\x27free\x27: True\x7d")] from rfl)
     (by decide) (by decide) (by decide) (by decide) (by decide)⟩

/-- C10: a successful normalization preserves the list of keys, in
iteration order: no key is added or removed, only values are rebound. -/
theorem tratar_preserva_chaves {d d' : Registro}
    (h : tratar_dados_aninhados d = some d') :
    d'.map Prod.fst = d.map Prod.fst := by
  obtain ⟨d1, d2, d3, h1, h2, h3, hd'⟩ := tratar_cadeia h
  rw [hd', map_fst_trataStr, map_fst_trataStr,
    map_fst_trataJuncao socioDe "qsa" h3,
    map_fst_trataJuncao textoDe "atividades_secundarias" h2,
    map_fst_trataJuncao textoDe "atividade_principal" h1]

/-- C10 witness: normalizing a record with an `extra` field rebinds the
value but keeps the key list identical. -/
theorem tratar_preserva_chaves_testemunha :
    ([("extra", JValue.str "None"), ("x", JValue.num 3)] : Registro).map Prod.fst =
      ([("extra", JValue.null), ("x", JValue.num 3)] : Registro).map Prod.fst :=
  tratar_preserva_chaves (show tratar_dados_aninhados
      [("extra", JValue.null), ("x", JValue.num 3)] =
    some [("extra", JValue.str "None"), ("x", JValue.num 3)] from rfl)

/-- C8: a `text`-less entry under `atividade_principal` or under
`atividades_secundarias`, or a `nome`-less entry under `qsa`, makes the
normalizer raise (return `none`, the uncaught structural error), while
both fetcher failure classes are recovered into a normally returned
ErrorResult value. -/
theorem normalizador_lanca_fetcher_recupera :
    (∀ (d : Registro) (itens : List JValue) (campos : List (String × JValue)),
        dictGet d "atividade_principal" = some (JValue.arr itens) →
        JValue.obj campos ∈ itens → dictGet campos "text" = none →
        tratar_dados_aninhados d = none) ∧
    (∀ (d : Registro) (itens : List JValue) (campos : List (String × JValue)),
        dictGet d "atividades_secundarias" = some (JValue.arr itens) →
        JValue.obj campos ∈ itens → dictGet campos "text" = none →
        tratar_dados_aninhados d = none) ∧
    (∀ (d : Registro) (itens : List JValue) (campos : List (String × JValue)),
        dictGet d "qsa" = some (JValue.arr itens) →
        JValue.obj campos ∈ itens → dictGet campos "nome" = none →
        tratar_dados_aninhados d = none) ∧
    (∀ (cnpj : String) (r : Resposta), r.status ≠ 200 →
        (obter_dados_empresa_por_cnpj cnpj r).1 =
          JValue.obj [("status", JValue.str "ERROR"),
            ("message", JValue.str ("Resposta HTTP com status " ++ toString r.status))]) ∧
    (∀ (cnpj : String) (r : Resposta) (e : String), r.status = 200 →
        r.decodificado = Except.error e →
        (obter_dados_empresa_por_cnpj cnpj r).1 =
          JValue.obj [("status", JValue.str "ERROR"),
            ("message", JValue.str "Erro na decodificação do JSON.")]) := by
  refine ⟨?_, ?_, ?_, ?_, ?_⟩
  · intro d itens campos hg hmem hc
    have hfalha : textoDe (JValue.obj campos) = none := by
      simp [textoDe, hc]
    exact tratar_falha_passo1 (trataJuncao_falha textoDe "atividade_principal" hg
      (show iteraCom textoDe (JValue.arr itens) = none from
        mapM_none_of_mem textoDe hmem hfalha))
  · intro d itens campos hg hmem hc
    have hfalha : textoDe (JValue.obj campos) = none := by
      simp [textoDe, hc]
    have hitera : iteraCom textoDe (JValue.arr itens) = none :=
      mapM_none_of_mem textoDe hmem hfalha
    cases h1 : trataJuncao textoDe "atividade_principal" d with
    | none => exact tratar_falha_passo1 h1
    | some d1 =>
        have hg1 : dictGet d1 "atividades_secundarias" = some (JValue.arr itens) := by
          rw [dictGet_trataJuncao_ne textoDe "atividade_principal"
            "atividades_secundarias" (by decide) h1, hg]
        exact tratar_falha_passo2 h1
          (trataJuncao_falha textoDe "atividades_secundarias" hg1 hitera)
  · intro d itens campos hg hmem hc
    have hfalha : socioDe (JValue.obj campos) = none := by
      simp [socioDe, hc]
    have hitera : iteraCom socioDe (JValue.arr itens) = none :=
      mapM_none_of_mem socioDe hmem hfalha
    cases h1 : trataJuncao textoDe "atividade_principal" d with
    | none => exact tratar_falha_passo1 h1
    | some d1 =>
        have hg1 : dictGet d1 "qsa" = some (JValue.arr itens) := by
          rw [dictGet_trataJuncao_ne textoDe "atividade_principal" "qsa"
            (by decide) h1, hg]
        cases h2 : trataJuncao textoDe "atividades_secundarias" d1 with
        | none => exact tratar_falha_passo2 h1 h2
        | some d2 =>
            have hg2 : dictGet d2 "qsa" = some (JValue.arr itens) := by
              rw [dictGet_trataJuncao_ne textoDe "atividades_secundarias" "qsa"
                (by decide) h2, hg1]
            exact tratar_falha_passo3 h1 h2
              (trataJuncao_falha socioDe "qsa" hg2 hitera)
  · intro cnpj r h
    simp [obter_dados_empresa_por_cnpj, h]
  · intro cnpj r e h he
    simp [obter_dados_empresa_por_cnpj, h, he]

/-- C8 witness: a `text`-less entry under either activity field and a
`nome`-less member raise; a 429 status and a status-200 parse failure are
both returned as ErrorResult values. -/
theorem normalizador_lanca_fetcher_recupera_testemunha :
    tratar_dados_aninhados [("atividade_principal", JValue.arr [JValue.obj []])] =
      none ∧
    tratar_dados_aninhados [("atividades_secundarias", JValue.arr [JValue.obj []])] =
      none ∧
    tratar_dados_aninhados
        [("qsa", JValue.arr [JValue.obj [("qual", JValue.str "Socio")]])] = none ∧
    (obter_dados_empresa_por_cnpj "06947283000160" ⟨429, "", Except.error "x"⟩).1 =
      JValue.obj [("status", JValue.str "ERROR"),
        ("message", JValue.str ("Resposta HTTP com status " ++ toString (429 : Nat)))] ∧
    (obter_dados_empresa_por_cnpj "06947283000160" ⟨200, "hm", Except.error "err"⟩).1 =
      JValue.obj [("status", JValue.str "ERROR"),
        ("message", JValue.str "Erro na decodificação do JSON.")] :=
  ⟨normalizador_lanca_fetcher_recupera.1 _ _ [] rfl (by simp) rfl,
   normalizador_lanca_fetcher_recupera.2.1 _ _ [] rfl (by simp) rfl,
   normalizador_lanca_fetcher_recupera.2.2.1 _ _ [("qual", JValue.str "Socio")] rfl
     (by simp) rfl,
   normalizador_lanca_fetcher_recupera.2.2.2.1 "06947283000160"
     ⟨429, "", Except.error "x"⟩ (by decide),
   normalizador_lanca_fetcher_recupera.2.2.2.2 "06947283000160"
     ⟨200, "hm", Except.error "err"⟩ "err" rfl rfl⟩

/-! ## Claim theorems: exporter -/

theorem guarda_falsa {d : Registro}
    (h : d = [] ∨ dictGet d "status" = some (JValue.str "ERROR")) :
    (!d.isEmpty && statusNaoErro (dictGet d "status")) = false := by
  rcases h with h | h
  · subst h; rfl
  · rw [h]
    simp [statusNaoErro]

theorem guarda_verdadeira {d : Registro} (h1 : d ≠ [])
    (h2 : dictGet d "status" ≠ some (JValue.str "ERROR")) :
    (!d.isEmpty && statusNaoErro (dictGet d "status")) = true := by
  have hne : d.isEmpty = false := by
    cases d with
    | nil => exact absurd rfl h1
    | cons par resto => rfl
  have hs : statusNaoErro (dictGet d "status") = true := by
    cases ho : dictGet d "status" with
    | none => rfl
    | some v =>
        cases v with
        | str s =>
            have hsne : s ≠ "ERROR" := by
              intro hcon
              exact h2 (by rw [ho, hcon])
            simp [statusNaoErro, hsne]
        | num n => rfl
        | bool b => rfl
        | null => rfl
        | arr itens => rfl
        | obj campos => rfl
  rw [hne, hs]
  rfl

/-- C1 (amended): an empty record or one whose `status` is `"ERROR"` is
only reported with the skip notice carrying the record's `message` value;
a non-empty record whose `status` is not `"ERROR"` is handed to the
normalizer, and the file is written exactly when normalization succeeds
(a structural error in the nested fields propagates instead, see the
counterexample). -/
theorem salvar_guarda_exportacao (d : Registro) (nome : String) :
    (d = [] ∨ dictGet d "status" = some (JValue.str "ERROR") →
        salvar_dados_empresa_excel d nome =
          ResultadoExportacao.pulado (avisoPulo d)) ∧
    (d ≠ [] → dictGet d "status" ≠ some (JValue.str "ERROR") →
        (∀ d', tratar_dados_aninhados d = some d' →
            salvar_dados_empresa_excel d nome =
              ResultadoExportacao.salvo (d'.map Prod.fst) (d'.map Prod.snd) nome
                ("Dados da empresa salvos com sucesso no arquivo " ++ nome)) ∧
        (tratar_dados_aninhados d = none →
            salvar_dados_empresa_excel d nome = ResultadoExportacao.excecao)) := by
  constructor
  · intro h
    simp [salvar_dados_empresa_excel, guarda_falsa h]
  · intro h1 h2
    constructor
    · intro d' htr
      simp [salvar_dados_empresa_excel, guarda_verdadeira h1 h2, htr]
    · intro htr
      simp [salvar_dados_empresa_excel, guarda_verdadeira h1 h2, htr]

/-- C1 witness: an ErrorResult and the empty record are skipped with the
notice; a plain record is written; a malformed secondary-activities list
raises. -/
theorem salvar_guarda_exportacao_testemunha :
    salvar_dados_empresa_excel
        [("status", JValue.str "ERROR"), ("message", JValue.str "boom")]
        "dados_empresa.xlsx" =
      ResultadoExportacao.pulado
        (avisoPulo [("status", JValue.str "ERROR"), ("message", JValue.str "boom")]) ∧
    salvar_dados_empresa_excel [] "dados_empresa.xlsx" =
      ResultadoExportacao.pulado (avisoPulo []) ∧
    salvar_dados_empresa_excel [("nome", JValue.str "X")] "dados_empresa.xlsx" =
      ResultadoExportacao.salvo
        (([("nome", JValue.str "X")] : Registro).map Prod.fst)
        (([("nome", JValue.str "X")] : Registro).map Prod.snd)
        "dados_empresa.xlsx"
        ("Dados da empresa salvos com sucesso no arquivo " ++ "dados_empresa.xlsx") ∧
    salvar_dados_empresa_excel
        [("atividades_secundarias", JValue.arr [JValue.num 1])]
        "dados_empresa.xlsx" = ResultadoExportacao.excecao :=
  ⟨(salvar_guarda_exportacao _ _).1 (Or.inr rfl),
   (salvar_guarda_exportacao _ _).1 (Or.inl rfl),
   ((salvar_guarda_exportacao _ _).2 (by simp) (by simp [dictGet])).1 _ rfl,
   ((salvar_guarda_exportacao _ _).2 (by simp) (by simp [dictGet])).2 rfl⟩

/-- C1 counterexample: the claim "for every non-empty record whose status
is not ERROR, the file is written" fails: this record passes the guard but
the normalizer raises on its `nome`-less `qsa` entry, so no file is
written. -/
theorem salvar_nao_escreve_qsa_malformado :
    ([("qsa", JValue.arr [JValue.obj []])] : Registro) ≠ [] ∧
    dictGet [("qsa", JValue.arr [JValue.obj []])] "status" = none ∧
    salvar_dados_empresa_excel [("qsa", JValue.arr [JValue.obj []])]
        "dados_empresa.xlsx" = ResultadoExportacao.excecao :=
  ⟨by simp, rfl, rfl⟩

/-- C6 (amended): a guard-passing record whose normalization succeeds is
written as a one-row table: header = the normalized record's keys in
iteration order, single data row = its values, at the given path with no
index column. -/
theorem salvar_escreve_uma_linha (d d' : Registro) (nome : String)
    (h1 : d ≠ []) (h2 : dictGet d "status" ≠ some (JValue.str "ERROR"))
    (h3 : tratar_dados_aninhados d = some d') :
    salvar_dados_empresa_excel d nome =
      ResultadoExportacao.salvo (d'.map Prod.fst) (d'.map Prod.snd) nome
        ("Dados da empresa salvos com sucesso no arquivo " ++ nome) := by
  simp [salvar_dados_empresa_excel, guarda_verdadeira h1 h2, h3]

/-- C6 witness: `\x7ba: 1, b: "x"\x7d` yields header `[a, b]` and data row
`[1, "x"]`. -/
theorem salvar_escreve_uma_linha_testemunha :
    salvar_dados_empresa_excel [("a", JValue.num 1), ("b", JValue.str "x")]
        "dados_empresa.xlsx" =
      ResultadoExportacao.salvo
        (([("a", JValue.num 1), ("b", JValue.str "x")] : Registro).map Prod.fst)
        (([("a", JValue.num 1), ("b", JValue.str "x")] : Registro).map Prod.snd)
        "dados_empresa.xlsx"
        ("Dados da empresa salvos com sucesso no arquivo " ++ "dados_empresa.xlsx") :=
  salvar_escreve_uma_linha _ _ _ (by simp) (by simp [dictGet]) rfl

/-- C6 counterexample: the claim quantifies over every guard-passing
record, but this one passes the guard and no spreadsheet is produced: the
normalizer raises on its `text`-less `atividade_principal` entry. -/
theorem salvar_nao_escreve_atividade_malformada :
    ([("atividade_principal", JValue.arr [JValue.obj []])] : Registro) ≠ [] ∧
    dictGet [("atividade_principal", JValue.arr [JValue.obj []])] "status" = none ∧
    salvar_dados_empresa_excel [("atividade_principal", JValue.arr [JValue.obj []])]
        "dados_empresa.xlsx" = ResultadoExportacao.excecao :=
  ⟨by simp, rfl, rfl⟩
